import Mathlib

/-!
# Verification of the clockjs countdown timer and stopwatch core

A shallow embedding of `src/lib.rs` (modules `timer` and `stopwatch`) and
proofs about its display loops, construction validation, and stop-callback
behaviour.

Machine integers (`u32`) are modelled as `Nat` with explicit reduction
modulo `2^32` at every arithmetic operation that the Rust code performs on
`u32` values (release-mode wrapping semantics; `AtomicU32::fetch_add` wraps
unconditionally).  Output sinks are modelled as the list of strings passed
to the successive `write!`/`writeln!` calls, in order.
-/

set_option autoImplicit false

/-- The modulus of `u32` arithmetic, `2 ^ 32`. -/
def U32 : Nat := 4294967296

/-- Wrapping `u32` multiplication, as performed on `hours * 3600` etc. -/
def u32mul (a b : Nat) : Nat := (a * b) % U32

/-- Wrapping `u32` addition. -/
def u32add (a b : Nat) : Nat := (a + b) % U32

/-- `TimerStruct` from `src/lib.rs` (module `timer`): a countdown timer
holding its total `duration` in seconds together with the original input
components. -/
structure TimerStruct where
  duration : Nat
  hours : Nat
  minutes : Nat
  seconds : Nat
deriving DecidableEq, Repr

/-- The duration computed by `TimerStruct::new`:
`(hours * 3600) + (minutes * 60) + seconds` evaluated left to right in
`u32` arithmetic. -/
def computedDuration (hours minutes seconds : Nat) : Nat :=
  u32add (u32add (u32mul hours 3600) (u32mul minutes 60)) seconds

/-- `TimerStruct::new` from `src/lib.rs`: computes the total duration and
rejects a zero total with the error string, otherwise stores the duration
and the three input components. -/
def TimerStruct.new (hours minutes seconds : Nat) : Except String TimerStruct :=
  let duration := computedDuration hours minutes seconds
  if duration = 0 then
    .error "Duration need to be 1 or more seconds."
  else
    .ok { duration := duration, hours := hours, minutes := minutes, seconds := seconds }

/-- The display string built on each iteration of `start_timer`:
`format!("{}:{}:{}", v / 3600, (v % 3600) / 60, (v % 3600) % 60)`. -/
def timerDisplay (v : Nat) : String :=
  Nat.repr (v / 3600) ++ ":" ++ Nat.repr ((v % 3600) / 60) ++ ":" ++ Nat.repr ((v % 3600) % 60)

/-- The loop body of `TimerStruct::start_timer`, recursing on the local
`current_duration`: at `0` it writes the display followed by a newline and
breaks; otherwise it writes the display followed by a carriage return,
sleeps, decrements, and repeats. -/
def startTimerLoop : Nat → List String
  | 0 => [timerDisplay 0 ++ "\n"]
  | n + 1 => (timerDisplay (n + 1) ++ "\r") :: startTimerLoop n

/-- `TimerStruct::start_timer` from `src/lib.rs`: takes the receiver by
shared reference (`&self`), so the four stored fields are returned
unchanged; the second component is the sequence of strings written to the
sink. -/
def TimerStruct.start_timer (t : TimerStruct) : TimerStruct × List String :=
  (t, startTimerLoop t.duration)

/-- `StopwatchStatus` from `src/lib.rs` (module `stopwatch`). -/
inductive StopwatchStatus where
  | Stopped
  | Running
deriving DecidableEq, Repr

/-- `StopwatchStruct` from `src/lib.rs`, without the stored callback: the
calls made to `operation_on_stop` are recorded as explicit events by
`start_stopwatch` instead. -/
structure StopwatchStruct where
  current_time : Nat
  status : StopwatchStatus
deriving DecidableEq, Repr

/-- `StopwatchStruct::new`: starts at elapsed time `0`, `Running`. -/
def StopwatchStruct.new : StopwatchStruct :=
  { current_time := 0, status := StopwatchStatus.Running }

/-- An observable event of `start_stopwatch`: a string written to the sink,
or an invocation of the `operation_on_stop` callback with a `u32` value. -/
inductive SwEvent where
  | write (s : String)
  | stopCall (n : Nat)
deriving DecidableEq, Repr

/-- The display string built on each iteration of `start_stopwatch`:
`format!("{}:{}:{}", v / 3600, (v % 3600) / 60, v % 60)`. -/
def stopwatchDisplay (v : Nat) : String :=
  Nat.repr (v / 3600) ++ ":" ++ Nat.repr ((v % 3600) / 60) ++ ":" ++ Nat.repr (v % 60)

/-- The cooperative-path loop of `StopwatchStruct::start_stopwatch`.

Each iteration first polls `self.status`; the external holder of the
stopwatch flips the status to `Stopped` exactly once, so a terminating
cooperative run is characterised by `k`, the number of iterations that
observe `Running` before the first iteration that observes `Stopped`.
An iteration that observes `Running` loads the shared `AtomicU32`, writes
the display followed by a carriage return, sleeps one second, and then
`fetch_add(1)`s the shared counter (wrapping).  Returns the written strings
and the final value of the shared counter. -/
def stopwatchLoop : Nat → Nat → List String × Nat
  | 0, shared => ([], shared)
  | k + 1, shared =>
      let line := stopwatchDisplay shared ++ "\r"
      let rest := stopwatchLoop k ((shared + 1) % U32)
      (line :: rest.1, rest.2)

/-- `StopwatchStruct::start_stopwatch` on the cooperative stop path, the
only path that returns to the caller (the Ctrl-C handler exits the
process).  The shared atomic is initialised from `self.current_time`; after
the loop breaks, `self.current_time` is set to the final shared value, a
bare newline is written, and `operation_on_stop` is invoked once with
`self.current_time`.  `k` is the number of iterations that observe
`Running` (see `stopwatchLoop`). -/
def StopwatchStruct.start_stopwatch (sw : StopwatchStruct) (k : Nat) :
    StopwatchStruct × List SwEvent :=
  let r := stopwatchLoop k sw.current_time
  let sw' : StopwatchStruct := { current_time := r.2, status := StopwatchStatus.Stopped }
  (sw', r.1.map SwEvent.write ++ [SwEvent.write "\n", SwEvent.stopCall r.2])

/-- The display format prescribed by the spec:
`"{v/3600}:{(v%3600)/60}:{v%60}"`, each field decimal with no leading
zeros, separated by colons. -/
def specDisplay (v : Nat) : String :=
  Nat.repr (v / 3600) ++ ":" ++ Nat.repr ((v % 3600) / 60) ++ ":" ++ Nat.repr (v % 60)

/-! ## Helper lemmas -/

theorem U32_eq_pow : U32 = 2 ^ 32 := by norm_num [U32]

/-- The computed duration is the exact total reduced modulo `2 ^ 32`. -/
theorem computedDuration_mod (h m s : Nat) :
    computedDuration h m s = (h * 3600 + m * 60 + s) % U32 := by
  unfold computedDuration u32add u32mul U32
  omega

/-- When the exact total fits in `u32`, no wrapping occurs. -/
theorem computedDuration_eq (h m s : Nat) (hlt : h * 3600 + m * 60 + s < U32) :
    computedDuration h m s = h * 3600 + m * 60 + s := by
  rw [computedDuration_mod]
  exact Nat.mod_eq_of_lt hlt

/-- Closed form of the `start_timer` loop: `d` carriage-return lines for the
values `d, d-1, …, 1`, then the newline-terminated line for `0`. -/
theorem startTimerLoop_eq (d : Nat) :
    startTimerLoop d =
      ((List.range d).map (fun i => timerDisplay (d - i) ++ "\r")) ++
        [timerDisplay 0 ++ "\n"] := by
  induction d with
  | zero => simp [startTimerLoop]
  | succ n ih =>
      have hmap :
          List.map ((fun i => timerDisplay (n + 1 - i) ++ "\r") ∘ Nat.succ) (List.range n) =
            List.map (fun i => timerDisplay (n - i) ++ "\r") (List.range n) := by
        apply List.map_congr_left
        intro a _
        simp [Nat.succ_sub_succ]
      rw [startTimerLoop, ih, List.range_succ_eq_map, List.map_cons, List.map_map, hmap]
      simp

/-- Lines written by the cooperative stopwatch loop when the shared counter
does not wrap: displays of `shared, shared+1, …, shared+k-1`. -/
theorem stopwatchLoop_lines (k : Nat) :
    ∀ shared : Nat, shared + k < U32 →
      (stopwatchLoop k shared).1 =
        (List.range k).map (fun i => stopwatchDisplay (shared + i) ++ "\r") := by
  induction k with
  | zero => intro shared _; simp [stopwatchLoop]
  | succ n ih =>
      intro shared hlt
      rw [stopwatchLoop]
      have h1 : (shared + 1) % U32 = shared + 1 := Nat.mod_eq_of_lt (by omega)
      rw [h1, ih (shared + 1) (by omega), List.range_succ_eq_map]
      simp only [List.map_cons, List.map_map, Nat.add_zero]
      congr 1
      apply List.map_congr_left
      intro a _
      simp only [Function.comp]
      congr 2
      omega

/-- Final value of the shared counter after `k` non-wrapping increments. -/
theorem stopwatchLoop_fin (k : Nat) :
    ∀ shared : Nat, shared + k < U32 → (stopwatchLoop k shared).2 = shared + k := by
  induction k with
  | zero => intro shared _; simp [stopwatchLoop]
  | succ n ih =>
      intro shared hlt
      rw [stopwatchLoop]
      have h1 : (shared + 1) % U32 = shared + 1 := Nat.mod_eq_of_lt (by omega)
      rw [h1, ih (shared + 1) (by omega)]
      omega

/-- Splitting a cooperative run into two segments of iterations. -/
theorem stopwatchLoop_add (a b : Nat) :
    ∀ shared : Nat,
      stopwatchLoop (a + b) shared =
        ((stopwatchLoop a shared).1 ++ (stopwatchLoop b (stopwatchLoop a shared).2).1,
          (stopwatchLoop b (stopwatchLoop a shared).2).2) := by
  induction a with
  | zero => intro shared; simp [stopwatchLoop]
  | succ n ih =>
      intro shared
      have e : n + 1 + b = (n + b) + 1 := by omega
      rw [e, stopwatchLoop, ih ((shared + 1) % U32), stopwatchLoop]
      simp

/-- The full event trace of a cooperative run from a fresh stopwatch that
observes `Stopped` after `k` completed ticks, `k` within `u32` range. -/
theorem start_stopwatch_new_eq (k : Nat) (hk : k < U32) :
    StopwatchStruct.new.start_stopwatch k =
      ({ current_time := k, status := StopwatchStatus.Stopped },
        ((List.range k).map (fun i => SwEvent.write (stopwatchDisplay i ++ "\r"))) ++
          [SwEvent.write "\n", SwEvent.stopCall k]) := by
  unfold StopwatchStruct.start_stopwatch
  simp only [StopwatchStruct.new, stopwatchLoop_lines k 0 (by omega),
    stopwatchLoop_fin k 0 (by omega)]
  rw [List.map_map]
  simp [Function.comp]

/-- The timer's third display field `(v % 3600) % 60` agrees with the
spec's `v % 60`. -/
theorem timerDisplay_eq_specDisplay (v : Nat) : timerDisplay v = specDisplay v := by
  unfold timerDisplay specDisplay
  rw [Nat.mod_mod_of_dvd v (by norm_num : (60 : Nat) ∣ 3600)]

/-- One Running iteration of the stopwatch loop. -/
theorem stopwatchLoop_one (shared : Nat) :
    stopwatchLoop 1 shared = ([stopwatchDisplay shared ++ "\r"], (shared + 1) % U32) := rfl

/-! ## Claims -/

/-- C3: Timer construction fails with the `InvalidDuration` error iff the
computed total `hours*3600 + minutes*60 + seconds` (as the code computes
it, in `u32` arithmetic) is `0`; every input with a nonzero computed total
yields a Timer — there is no other failure condition. -/
theorem C3_invalid_duration_iff (h m s : Nat) :
    (TimerStruct.new h m s = .error "Duration need to be 1 or more seconds." ↔
      computedDuration h m s = 0) ∧
    ((∃ t, TimerStruct.new h m s = .ok t) ↔ computedDuration h m s ≠ 0) := by
  by_cases h0 : computedDuration h m s = 0
  · simp [TimerStruct.new, h0]
  · simp [TimerStruct.new, h0]

/-- C5 counterexample: `Timer::new(0,0,3)` does succeed with
`duration = 3`, but the first line the run writes is `"0:0:3\r"`
(the display is `hours:minutes:seconds` of the remaining value), not the
claimed `"3:0:0\r"`. -/
theorem C5_scenario_cex :
    TimerStruct.new 0 0 3 = .ok { duration := 3, hours := 0, minutes := 0, seconds := 3 } ∧
    (TimerStruct.start_timer { duration := 3, hours := 0, minutes := 0, seconds := 3 }).2 =
      ["0:0:3\r", "0:0:2\r", "0:0:1\r", "0:0:0\n"] ∧
    "0:0:3\r" ≠ "3:0:0\r" := by
  exact ⟨rfl, by decide, by decide⟩

/-- C5 (amended): `Timer::new(0,0,3)` succeeds with `duration = 3`, and
running it writes exactly `"0:0:3\r"`, `"0:0:2\r"`, `"0:0:1\r"`,
`"0:0:0\n"`, in that order (3 remaining seconds render in the seconds
field, not the hours field). -/
theorem C5_timer_three_seconds :
    TimerStruct.new 0 0 3 = .ok { duration := 3, hours := 0, minutes := 0, seconds := 3 } ∧
    (TimerStruct.start_timer { duration := 3, hours := 0, minutes := 0, seconds := 3 }).2 =
      ["0:0:3\r", "0:0:2\r", "0:0:1\r", "0:0:0\n"] := by
  exact ⟨rfl, by decide⟩

/-- C6: on every tick of either loop, the line written for current value
`v` is `"{v/3600}:{(v%3600)/60}:{v%60}"`, decimal with no leading zeros,
colon-separated: both display functions agree with the spec's format, the
head line of a timer run at value `v` is that string (`\n`-terminated at
`0`, `\r`-terminated otherwise), and a Running stopwatch iteration at
shared value `v` writes that string `\r`-terminated. -/
theorem C6_display_format (v : Nat) :
    timerDisplay v = specDisplay v ∧
    stopwatchDisplay v = specDisplay v ∧
    (startTimerLoop v).head? = some (specDisplay v ++ if v = 0 then "\n" else "\r") ∧
    (stopwatchLoop 1 v).1 = [specDisplay v ++ "\r"] := by
  refine ⟨timerDisplay_eq_specDisplay v, rfl, ?_, rfl⟩
  cases v with
  | zero => simp [startTimerLoop, timerDisplay_eq_specDisplay 0]
  | succ n => simp [startTimerLoop, timerDisplay_eq_specDisplay (n + 1)]

/-- C7 (amended): a successfully constructed Timer stores
`duration = (h*3600 + m*60 + s) mod 2^32` (wrapping `u32` arithmetic, not
the exact integer total), `duration > 0`, the three input components
unchanged, and `start_timer` leaves all four stored fields unchanged. -/
theorem C7_duration_invariant (h m s : Nat) (t : TimerStruct)
    (hok : TimerStruct.new h m s = .ok t) :
    t.duration = (h * 3600 + m * 60 + s) % U32 ∧
    0 < t.duration ∧
    t.hours = h ∧ t.minutes = m ∧ t.seconds = s ∧
    (TimerStruct.start_timer t).1 = t := by
  simp only [TimerStruct.new] at hok
  by_cases h0 : computedDuration h m s = 0
  · rw [if_pos h0] at hok
    exact absurd hok (by simp)
  · rw [if_neg h0] at hok
    injection hok with h1
    subst h1
    exact ⟨computedDuration_mod h m s, Nat.pos_of_ne_zero h0, rfl, rfl, rfl, rfl⟩

/-- Witness for C7 at `(0, 0, 5)`. -/
theorem C7_duration_invariant_witness :
    TimerStruct.new 0 0 5 = .ok { duration := 5, hours := 0, minutes := 0, seconds := 5 } ∧
    (({ duration := 5, hours := 0, minutes := 0, seconds := 5 } : TimerStruct).duration =
        (0 * 3600 + 0 * 60 + 5) % U32 ∧
      0 < ({ duration := 5, hours := 0, minutes := 0, seconds := 5 } : TimerStruct).duration ∧
      ({ duration := 5, hours := 0, minutes := 0, seconds := 5 } : TimerStruct).hours = 0 ∧
      ({ duration := 5, hours := 0, minutes := 0, seconds := 5 } : TimerStruct).minutes = 0 ∧
      ({ duration := 5, hours := 0, minutes := 0, seconds := 5 } : TimerStruct).seconds = 5 ∧
      (TimerStruct.start_timer
          { duration := 5, hours := 0, minutes := 0, seconds := 5 }).1 =
        { duration := 5, hours := 0, minutes := 0, seconds := 5 }) :=
  ⟨rfl, C7_duration_invariant 0 0 5
    { duration := 5, hours := 0, minutes := 0, seconds := 5 } rfl⟩

/-- C7 counterexample: at `(2^28, 0, 5)` the exact total overflows `u32`,
so the stored duration `5` differs from `hours*3600 + minutes*60 + seconds`
as an exact integer. -/
theorem C7_duration_exact_cex :
    TimerStruct.new 268435456 0 5 =
      .ok { duration := 5, hours := 268435456, minutes := 0, seconds := 5 } ∧
    ({ duration := 5, hours := 268435456, minutes := 0, seconds := 5 } : TimerStruct).duration ≠
      268435456 * 3600 + 0 * 60 + 5 := by
  refine ⟨rfl, by norm_num⟩

/-- C1 counterexample: a cooperative stop observed after one completed
tick displays only the value `0`, yet the callback receives `1` — the
callback value is not the last elapsed value displayed. -/
theorem C1_callback_cex :
    (StopwatchStruct.new.start_stopwatch 1).2 =
      [SwEvent.write (stopwatchDisplay 0 ++ "\r"), SwEvent.write "\n", SwEvent.stopCall 1] ∧
    (1 : Nat) ≠ 0 := by decide

/-- C1 (amended): a cooperative run from a fresh stopwatch that observes
`Stopped` after `k` completed ticks (`k < 2^32`) writes the displays of
`0, 1, …, k-1`, then the final newline, and then invokes `on_stop` exactly
once, synchronously before returning, with the committed shared counter
value `k` — one greater than the last displayed value `k - 1` whenever at
least one tick completed, not equal to it. -/
theorem C1_cooperative_stop_events (k : Nat) (hk : k < U32) :
    (StopwatchStruct.new.start_stopwatch k).2 =
      ((List.range k).map (fun i => SwEvent.write (stopwatchDisplay i ++ "\r"))) ++
        [SwEvent.write "\n", SwEvent.stopCall k] ∧
    (0 < k → k = (k - 1) + 1) := by
  refine ⟨?_, by omega⟩
  rw [start_stopwatch_new_eq k hk]

/-- Witness for C1 at `k = 2`. -/
theorem C1_cooperative_stop_events_witness :
    2 < U32 ∧
    ((StopwatchStruct.new.start_stopwatch 2).2 =
        ((List.range 2).map (fun i => SwEvent.write (stopwatchDisplay i ++ "\r"))) ++
          [SwEvent.write "\n", SwEvent.stopCall 2] ∧
      (0 < 2 → 2 = (2 - 1) + 1)) :=
  ⟨by decide, C1_cooperative_stop_events 2 (by decide)⟩

/-- C2 counterexample: at `(2^28, 0, 5)` the exact total
`D = 2^28*3600 + 5` is positive, but the wrapped duration is `5` and the
run writes `6` lines, not `D + 1`. -/
theorem C2_overflow_line_count_cex :
    TimerStruct.new 268435456 0 5 =
      .ok { duration := 5, hours := 268435456, minutes := 0, seconds := 5 } ∧
    (TimerStruct.start_timer
        { duration := 5, hours := 268435456, minutes := 0, seconds := 5 }).2.length = 6 ∧
    (6 : Nat) ≠ (268435456 * 3600 + 0 * 60 + 5) + 1 := by
  refine ⟨rfl, by decide, by norm_num⟩

/-- C2 (amended): for every `(h, m, s)` whose exact total
`D = h*3600 + m*60 + s` satisfies `0 < D < 2^32` (no `u32` overflow),
construction succeeds storing `D`, and the run writes exactly `D + 1`
lines — the displays of `D, D-1, …, 1`, each `\r`-terminated, followed by
the `\n`-terminated display of `0`, which reads `0:0:0`. -/
theorem C2_timer_run_lines (h m s : Nat) (hpos : 0 < h * 3600 + m * 60 + s)
    (hlt : h * 3600 + m * 60 + s < U32) :
    TimerStruct.new h m s =
      .ok { duration := h * 3600 + m * 60 + s, hours := h, minutes := m, seconds := s } ∧
    (TimerStruct.start_timer
        { duration := h * 3600 + m * 60 + s, hours := h, minutes := m, seconds := s }).2 =
      ((List.range (h * 3600 + m * 60 + s)).map
          (fun i => timerDisplay (h * 3600 + m * 60 + s - i) ++ "\r")) ++
        [timerDisplay 0 ++ "\n"] ∧
    (TimerStruct.start_timer
        { duration := h * 3600 + m * 60 + s, hours := h, minutes := m, seconds := s }).2.length =
      (h * 3600 + m * 60 + s) + 1 ∧
    timerDisplay 0 ++ "\n" = "0:0:0\n" := by
  have hcd := computedDuration_eq h m s hlt
  refine ⟨?_, startTimerLoop_eq _, ?_, by decide⟩
  · simp only [TimerStruct.new, hcd]
    rw [if_neg (by omega)]
  · show (startTimerLoop (h * 3600 + m * 60 + s)).length = _
    rw [startTimerLoop_eq]
    simp

/-- Witness for C2 at `(0, 0, 2)`. -/
theorem C2_timer_run_lines_witness :
    (0 < 0 * 3600 + 0 * 60 + 2 ∧ 0 * 3600 + 0 * 60 + 2 < U32) ∧
    (TimerStruct.new 0 0 2 =
        .ok { duration := 0 * 3600 + 0 * 60 + 2, hours := 0, minutes := 0, seconds := 2 } ∧
      (TimerStruct.start_timer
          { duration := 0 * 3600 + 0 * 60 + 2, hours := 0, minutes := 0, seconds := 2 }).2 =
        ((List.range (0 * 3600 + 0 * 60 + 2)).map
            (fun i => timerDisplay (0 * 3600 + 0 * 60 + 2 - i) ++ "\r")) ++
          [timerDisplay 0 ++ "\n"] ∧
      (TimerStruct.start_timer
          { duration := 0 * 3600 + 0 * 60 + 2, hours := 0, minutes := 0,
            seconds := 2 }).2.length =
        (0 * 3600 + 0 * 60 + 2) + 1 ∧
      timerDisplay 0 ++ "\n" = "0:0:0\n") :=
  ⟨⟨by decide, by decide⟩, C2_timer_run_lines 0 0 2 (by decide) (by decide)⟩

/-- C4 counterexample: cooperatively stopping after the 2nd tick does make
the callback receive `2`, but the final write is the bare newline `"\n"`;
no line `"2:0:0\n"` (nor any line displaying `2`) is ever written. -/
theorem C4_final_line_cex :
    (StopwatchStruct.new.start_stopwatch 2).2 =
      [SwEvent.write "0:0:0\r", SwEvent.write "0:0:1\r", SwEvent.write "\n",
        SwEvent.stopCall 2] ∧
    SwEvent.write "2:0:0\n" ∉ (StopwatchStruct.new.start_stopwatch 2).2 := by decide

/-- C4 (amended): a fresh stopwatch cooperatively stopped after the 2nd
tick (elapsed = 2) invokes the callback exactly once with `2`; the written
lines are the displays of `0` and `1` (each `\r`-terminated, the last one
reading `0:0:1`) followed by a bare final newline — the value `2` is never
displayed. -/
theorem C4_stop_after_two_ticks :
    (StopwatchStruct.new.start_stopwatch 2).2 =
      [SwEvent.write (stopwatchDisplay 0 ++ "\r"), SwEvent.write (stopwatchDisplay 1 ++ "\r"),
        SwEvent.write "\n", SwEvent.stopCall 2] ∧
    stopwatchDisplay 1 = "0:0:1" := by decide

/-- C8 counterexample: if the loop stays Running for `2^32 + 1` ticks, the
`AtomicU32` counter wraps: the display after the one showing `2^32 - 1`
shows `0`, not `(2^32 - 1) + 1` — the displayed values are not strictly
increasing for as long as the status remains Running. -/
theorem C8_wraparound_cex :
    (StopwatchStruct.new.start_stopwatch (U32 + 1)).2 =
      ((List.range (U32 - 1)).map (fun i => SwEvent.write (stopwatchDisplay i ++ "\r"))) ++
        [SwEvent.write (stopwatchDisplay (U32 - 1) ++ "\r"),
          SwEvent.write (stopwatchDisplay 0 ++ "\r"),
          SwEvent.write "\n", SwEvent.stopCall 1] ∧
    (0 : Nat) ≠ (U32 - 1) + 1 := by
  constructor
  · have h2 : stopwatchLoop 2 (U32 - 1) =
        ([stopwatchDisplay (U32 - 1) ++ "\r", stopwatchDisplay 0 ++ "\r"], 1) := by
      rw [show (2 : Nat) = 1 + 1 from rfl, stopwatchLoop_add 1 1 (U32 - 1), stopwatchLoop_one,
        show (U32 - 1 + 1) % U32 = 0 by norm_num [U32], stopwatchLoop_one]
      norm_num [U32]
    have hsplit := stopwatchLoop_add (U32 - 1) 2 0
    have hlines := stopwatchLoop_lines (U32 - 1) 0 (by norm_num [U32])
    have hfin := stopwatchLoop_fin (U32 - 1) 0 (by norm_num [U32])
    unfold StopwatchStruct.start_stopwatch
    simp only [StopwatchStruct.new]
    rw [show U32 + 1 = (U32 - 1) + 2 by norm_num [U32], hsplit, hlines, hfin,
      show 0 + (U32 - 1) = U32 - 1 from by omega, h2]
    simp [Function.comp]
  · norm_num [U32]

/-- C8 (amended): for a fresh stopwatch whose loop observes `Stopped`
after `k < 2^32` completed ticks, the `i`-th written line (for every
`i < k`) displays exactly the elapsed value `i`: the displayed values
start at `0` and increase by exactly 1 per tick as long as the counter has
not wrapped past `2^32`. -/
theorem C8_elapsed_strictly_increasing (k i : Nat) (hik : i < k) (hk : k < U32) :
    (StopwatchStruct.new.start_stopwatch k).2[i]? =
      some (SwEvent.write (stopwatchDisplay i ++ "\r")) := by
  rw [start_stopwatch_new_eq k hk]
  show ((List.range k).map (fun i => SwEvent.write (stopwatchDisplay i ++ "\r")) ++
      [SwEvent.write "\n", SwEvent.stopCall k])[i]? = _
  rw [List.getElem?_append]
  simp [hik]

/-- Witness for C8 at `k = 3`, `i = 2`. -/
theorem C8_elapsed_strictly_increasing_witness :
    (2 < 3 ∧ 3 < U32) ∧
    (StopwatchStruct.new.start_stopwatch 3).2[2]? =
      some (SwEvent.write (stopwatchDisplay 2 ++ "\r")) :=
  ⟨⟨by decide, by decide⟩, C8_elapsed_strictly_increasing 3 2 (by decide) (by decide)⟩

/-- C10: the duration is computed in wrapping 32-bit unsigned arithmetic
(`mod 2^32`), so the input `hours = 2^28 = 268435456`, whose real total
`2^28 * 3600` is a positive multiple of `2^32`, wraps to a computed
duration of `0` and construction fails with the `InvalidDuration` error. -/
theorem C10_u32_wrapping_overflow (h m s : Nat) :
    computedDuration h m s = (h * 3600 + m * 60 + s) % U32 ∧
    0 < 268435456 * 3600 + 0 * 60 + 0 ∧
    computedDuration 268435456 0 0 = 0 ∧
    TimerStruct.new 268435456 0 0 = .error "Duration need to be 1 or more seconds." := by
  refine ⟨computedDuration_mod h m s, by norm_num, by decide, rfl⟩
